import Mathlib

/-!
Shallow embedding of the FlipEx exchange bot (src/main.py).

Monetary quantities are embedded as exact rationals. External effects
(the Crypto Pay price feed, invoice creation, invoice status polling and
payout-check creation) are passed in as explicit outcome parameters:
an outcome of none models the corresponding call raising an exception.
Each handler is embedded as a pure transition function that returns the
updated conversation state, the updated ledger rows, a structured message
and flags recording which external calls were reached.
-/

namespace FlipEx

/-- Constant USDT_MAX_LIMIT = 0.5 from main.py line 52. -/
def USDT_MAX_LIMIT : ℚ := 1/2

/-- Constant COMMISSION_RATE = 0.05 from main.py line 53. -/
def COMMISSION_RATE : ℚ := 1/20

/-- Constant MIN_USDT_AMOUNT = 0.01 from main.py line 54. -/
def MIN_USDT_AMOUNT : ℚ := 1/100

/-- State of ExchangeRateCache: the dict of rates keyed by strings of the
form SOURCE_TARGET, the optional expiry timestamp, and the TTL duration
(constructor default 300 seconds). -/
structure RateCache where
  cache : List (String × ℚ)
  cache_expiry : Option ℚ
  duration : ℚ
deriving DecidableEq

/-- The module-level rate_cache instance: ExchangeRateCache() with the
default duration of 300 seconds and an initially empty cache. -/
def rate_cache0 : RateCache := ⟨[], none, 300⟩

/-- Assignment to a Python dict key: the new binding shadows any old one. -/
def insertRate (cache : List (String × ℚ)) (key : String) (r : ℚ) :
    List (String × ℚ) :=
  (key, r) :: cache.filter (fun p => p.1 != key)

/-- Embedding of ExchangeRateCache._update_cache. The fetched parameter is
the outcome of crypto_pay.get_exchange_rates(): none models the call
raising, in which case the except branch leaves the cache untouched
(cache.clear() is only reached after a successful fetch). On success the
cache is rebuilt from the fetched (source, target, rate) triples and the
expiry is set to now + duration. Entries whose rate does not parse as a
number are skipped by the source; they are modelled as absent from the
fetched list. -/
def update_cache (c : RateCache) (now : ℚ)
    (fetched : Option (List (String × String × ℚ))) : RateCache :=
  match fetched with
  | none => c
  | some rates =>
      ⟨rates.foldl (fun m e => insertRate m (e.1 ++ "_" ++ e.2.1) e.2.2) [],
       some (now + c.duration), c.duration⟩

/-- Condition of the refresh guard in get_rate:
not self.cache_expiry or current_time > self.cache_expiry or not self.cache. -/
def needsRefresh (c : RateCache) (now : ℚ) : Bool :=
  (match c.cache_expiry with
   | none => true
   | some e => decide (e < now)) || c.cache.isEmpty

/-- Lookup cascade of get_rate after the refresh step: direct key, then the
cross rate through BTC, then the cross rate through TON, else none. -/
def lookupRate (cache : List (String × ℚ)) (f t : String) : Option ℚ :=
  match cache.lookup (f ++ "_" ++ t) with
  | some r => some r
  | none =>
      match cache.lookup (f ++ "_BTC"), cache.lookup ("BTC_" ++ t) with
      | some a, some b => some (a * b)
      | _, _ =>
          match cache.lookup (f ++ "_TON"), cache.lookup ("TON_" ++ t) with
          | some a, some b => some (a * b)
          | _, _ => none

/-- Result of get_rate: the returned rate, whether _update_cache (and hence
the external price source) was invoked, and the cache state afterwards. -/
structure GetRateResult where
  rate : Option ℚ
  called_external : Bool
  state : RateCache
deriving DecidableEq

/-- Embedding of ExchangeRateCache.get_rate. The Python default for the
to_currency argument is USDT; callers here pass it explicitly. -/
def get_rate (c : RateCache) (now : ℚ)
    (fetched : Option (List (String × String × ℚ)))
    (from_currency to_currency : String) : GetRateResult :=
  if needsRefresh c now then
    let c1 := update_cache c now fetched
    ⟨lookupRate c1.cache from_currency to_currency, true, c1⟩
  else
    ⟨lookupRate c.cache from_currency to_currency, false, c⟩

/-- The test_rates dict of validate_exchange_amount (main.py lines 461 to 467):
static fallback rates used when the live rate is missing, applied only when
USE_TESTNET is set. -/
def test_rates : List (String × ℚ) :=
  [("BTC", 30000), ("ETH", 2000), ("TON", 2), ("SOL", 100), ("NOT", 3/500)]

/-- Structured content of the messages produced by validate_exchange_amount.
The belowMin and aboveMax constructors carry the payloads interpolated into
the corresponding formatted strings: the boundary converted into the source
currency, the currency code, and the boundary in USDT. -/
inductive ValidationMsg where
  | ok
  | nonPositive
  | rateUnavailable (currency : String)
  | belowMin (min_in_currency : ℚ) (currency : String) (min_usdt : ℚ)
  | aboveMax (max_in_currency : ℚ) (currency : String) (max_usdt : ℚ)
deriving DecidableEq

/-- The tuple returned by validate_exchange_amount:
(is_valid, error_message, amount_usdt, rate, max_amount_in_currency). -/
structure ValidateResult where
  is_valid : Bool
  message : ValidationMsg
  amount_usdt : Option ℚ
  rate : Option ℚ
  max_amount_in_currency : Option ℚ
deriving DecidableEq

/-- Decision part of validate_exchange_amount (main.py lines 441 to 505),
taken after the oracle call: given the rate returned by get_rate, apply the
testnet fallback substitution and the threshold checks. The Python
truthiness test if not rate treats both None and 0.0 as missing; a missing
rate is replaced from test_rates only when use_testnet holds. The division
computing max_amount_in_currency is guarded by rate > 0 in the source and
is reached here only with a positive rate. -/
def validateCore (amount : ℚ) (currency : String) (rate_opt : Option ℚ)
    (use_testnet : Bool) : ValidateResult :=
  let rate0 : Option ℚ :=
    if rate_opt = none ∨ rate_opt = some 0 then
      (if use_testnet then test_rates.lookup currency else none)
    else rate_opt
  match rate0 with
  | none => ⟨false, .rateUnavailable currency, none, none, none⟩
  | some rate =>
      if rate ≤ 0 then
        ⟨false, .rateUnavailable currency, none, none, none⟩
      else
        let amount_usdt := amount * rate
        let max_amount_in_currency := USDT_MAX_LIMIT / rate
        if amount_usdt < MIN_USDT_AMOUNT then
          ⟨false, .belowMin (MIN_USDT_AMOUNT / rate) currency MIN_USDT_AMOUNT,
           some amount_usdt, some rate, some max_amount_in_currency⟩
        else if USDT_MAX_LIMIT < amount_usdt then
          ⟨false, .aboveMax max_amount_in_currency currency USDT_MAX_LIMIT,
           some amount_usdt, some rate, some max_amount_in_currency⟩
        else
          ⟨true, .ok, some amount_usdt, some rate, some max_amount_in_currency⟩

/-- Embedding of validate_exchange_amount. The function reads the
module-level rate_cache through get_rate, which may refresh it, so the
result is paired with the cache state afterwards; the decision itself
depends only on the amount, the currency, the returned rate and the
testnet flag. -/
def validate_exchange_amount (amount : ℚ) (currency : String) (c : RateCache)
    (now : ℚ) (fetched : Option (List (String × String × ℚ)))
    (use_testnet : Bool) : ValidateResult × RateCache :=
  if amount ≤ 0 then
    (⟨false, .nonPositive, none, none, none⟩, c)
  else
    let gr := get_rate c now fetched currency "USDT"
    (validateCore amount currency gr.rate use_testnet, gr.state)

/-- The commission and payout fields computed in process_amount
(main.py lines 740 to 743). -/
structure CalcResult where
  commission_original : ℚ
  commission_usdt : ℚ
  final_amount_usdt : ℚ
deriving DecidableEq

/-- Embedding of the commission computation in process_amount:
commission_original = amount * COMMISSION_RATE,
commission_usdt = commission_original * rate if rate else 0,
final_amount_usdt = amount_usdt - commission_usdt if amount_usdt else 0.
The rate and amount_usdt arguments are the values returned by a successful
validate_exchange_amount call; the Python conditional expressions test
truthiness, which for those numeric values means being nonzero.
The source performs these operations on Python binary doubles; here they
are embedded as exact rationals, the representation the specification
prescribes for monetary values. The two semantics differ: in double
precision the sum of commission_usdt and final_amount_usdt can miss
amount_usdt by one unit in the last place, for example at amount
0.2883367931107926 and rate 0.6929502798024108. -/
def process_amount_calc (amount rate amount_usdt : ℚ) : CalcResult :=
  let commission_original := amount * COMMISSION_RATE
  let commission_usdt := if rate = 0 then 0 else commission_original * rate
  let final_amount_usdt :=
    if amount_usdt = 0 then 0 else amount_usdt - commission_usdt
  ⟨commission_original, commission_usdt, final_amount_usdt⟩

/-- The aiogram FSM positions declared in ExchangeStates. -/
inductive ConvPos where
  | choosing_from_currency
  | entering_amount
  | confirming_exchange
deriving DecidableEq

/-- The per-conversation key-value data accumulated through
state.update_data, one optional field per key used by the handlers. -/
structure ConvData where
  from_currency : Option String
  to_currency : Option String
  rate : Option ℚ
  max_amount_in_currency : Option ℚ
  amount : Option ℚ
  final_amount : Option ℚ
  commission_amount : Option ℚ
  commission_usdt : Option ℚ
  amount_usdt : Option ℚ
  exchange_db_id : Option Nat
  invoice_id : Option Nat
deriving DecidableEq

/-- FSM state of one conversation: the current position (none when no state
is set) together with the stored data. -/
structure FSMState where
  pos : Option ConvPos
  data : ConvData
deriving DecidableEq

/-- Data bag with no keys set. -/
def emptyConvData : ConvData :=
  ⟨none, none, none, none, none, none, none, none, none, none, none⟩

/-- Effect of state.clear(): position unset, all stored data discarded. -/
def clearedState : FSMState := ⟨none, emptyConvData⟩

/-- One row of the exchanges table, restricted to the columns the embedded
transitions read or write. paid_at_set records whether the paid_at column
has been filled. -/
structure ExchangeRow where
  id : Nat
  user_id : Nat
  exchange_id : String
  from_currency : String
  amount : ℚ
  commission : ℚ
  commission_usdt : ℚ
  final_amount : ℚ
  amount_usdt : ℚ
  invoice_id : Nat
  status : String
  check_id : Option Nat
  paid_at_set : Bool
deriving DecidableEq

/-- Row update performed by Database.update_exchange_with_check: status set
to completed, paid_at filled, check reference stored. -/
def setCompleted (r : ExchangeRow) (cid : Nat) : ExchangeRow :=
  ⟨r.id, r.user_id, r.exchange_id, r.from_currency, r.amount, r.commission,
   r.commission_usdt, r.final_amount, r.amount_usdt, r.invoice_id,
   "completed", some cid, true⟩

/-- Embedding of Database.update_exchange_with_check (main.py lines 347 to
363): the row with the given id is unconditionally marked completed with the
check reference; no prior status is consulted. -/
def update_exchange_with_check (rows : List ExchangeRow) (exchange_db_id : Nat)
    (cid : Nat) : List ExchangeRow :=
  rows.map (fun r => if r.id = exchange_db_id then setCompleted r cid else r)

/-- Invoice object returned by crypto_pay.create_invoice, restricted to the
field the transitions store. -/
structure GatewayInvoice where
  invoice_id : Nat
deriving DecidableEq

/-- Messages sent to the user by confirm_exchange. -/
inductive ConfirmMsg where
  | missingFieldsError
  | invoiceCreateError
  | invoiceIssued
deriving DecidableEq

/-- Presence check for the required_fields list of confirm_exchange. -/
def requiredFieldsPresent (d : ConvData) : Bool :=
  d.from_currency.isSome && d.amount.isSome && d.final_amount.isSome &&
  d.commission_amount.isSome && d.commission_usdt.isSome && d.amount_usdt.isSome

/-- Outcome of the confirm_exchange transition. -/
structure ConfirmResult where
  fsm : FSMState
  exchanges : List ExchangeRow
  message : ConfirmMsg
  invoice_call_attempted : Bool
deriving DecidableEq

/-- Embedding of the confirm_exchange handler (main.py lines 785 to 888).
The invoice_outcome parameter is the result of crypto_pay.create_invoice:
none models the call raising, in which case the inner except branch answers
with a generic error and returns before any row is saved and before any
state change. On success a pending row is inserted (Database.save_exchange)
and the row id and invoice id are stored into the conversation data; the
FSM position is left as it was. User bookkeeping in the users table is
abstracted into the user_id argument. -/
def confirm_exchange (fsm : FSMState) (exchanges : List ExchangeRow)
    (invoice_outcome : Option GatewayInvoice) (user_id : Nat)
    (exchange_id : String) (new_row_id : Nat) : ConfirmResult :=
  if !(requiredFieldsPresent fsm.data) then
    ⟨clearedState, exchanges, .missingFieldsError, false⟩
  else
    match invoice_outcome with
    | none => ⟨fsm, exchanges, .invoiceCreateError, true⟩
    | some inv =>
        let d := fsm.data
        let row : ExchangeRow :=
          ⟨new_row_id, user_id, exchange_id, d.from_currency.getD "",
           d.amount.getD 0, d.commission_amount.getD 0, d.commission_usdt.getD 0,
           d.final_amount.getD 0, d.amount_usdt.getD 0, inv.invoice_id,
           "pending", none, false⟩
        let d1 : ConvData :=
          ⟨d.from_currency, d.to_currency, d.rate, d.max_amount_in_currency,
           d.amount, d.final_amount, d.commission_amount, d.commission_usdt,
           d.amount_usdt, some new_row_id, some inv.invoice_id⟩
        ⟨⟨fsm.pos, d1⟩, exchanges ++ [row], .invoiceIssued, true⟩

/-- Status values of a fetched invoice. -/
inductive InvoiceStatus where
  | active
  | paid
  | expired
deriving DecidableEq

/-- Check object returned by crypto_pay.create_check, restricted to the
field the transitions store. -/
structure GatewayCheck where
  check_id : Nat
deriving DecidableEq

/-- Messages produced by the check_payment handler. -/
inductive PaymentMsg where
  | noExchangeInfo
  | invoiceNotFound
  | invoiceFetchError
  | notYetPaid
  | checkCreateError
  | settled
deriving DecidableEq

/-- Outcome of the check_payment transition. create_check_called records
whether the crypto_pay.create_check call was reached. -/
structure PaymentResult where
  fsm : FSMState
  exchanges : List ExchangeRow
  message : PaymentMsg
  create_check_called : Bool
deriving DecidableEq

/-- Embedding of the check_payment handler (main.py lines 890 to 982).
The invoice_fetch parameter is the outcome of crypto_pay.get_invoices:
none models the call raising, some none an empty result, some (some st) an
invoice with status st. The check_outcome parameter is the outcome of
crypto_pay.create_check, none modelling a raise. The handler reads the
invoice id only from the conversation data and never consults the status
column of the exchanges table; on a successful check it marks the row
completed via update_exchange_with_check and clears the conversation. -/
def check_payment (fsm : FSMState) (exchanges : List ExchangeRow)
    (exchange_db_id : Nat) (invoice_fetch : Option (Option InvoiceStatus))
    (check_outcome : Option GatewayCheck) : PaymentResult :=
  match fsm.data.invoice_id with
  | none => ⟨fsm, exchanges, .noExchangeInfo, false⟩
  | some _ =>
      match invoice_fetch with
      | none => ⟨fsm, exchanges, .invoiceFetchError, false⟩
      | some none => ⟨fsm, exchanges, .invoiceNotFound, false⟩
      | some (some st) =>
          if st ≠ InvoiceStatus.paid then
            ⟨fsm, exchanges, .notYetPaid, false⟩
          else
            match check_outcome with
            | none => ⟨fsm, exchanges, .checkCreateError, true⟩
            | some chk =>
                ⟨clearedState,
                 update_exchange_with_check exchanges exchange_db_id chk.check_id,
                 .settled, true⟩

/-! Concrete fixtures used by witnesses and counterexamples. -/

/-- Fresh cache holding a direct TON to USDT rate of 2, not yet expired at
the times used below. -/
def freshCacheTON : RateCache := ⟨[("TON_USDT", 2)], some 1000, 300⟩

/-- Cache holding a stale TON to USDT rate of 3, whose expiry 100 has
already passed at the times used below. -/
def expiredCacheTON : RateCache := ⟨[("TON_USDT", 3)], some 100, 300⟩

/-- Fresh cache with no direct ETH to USDT entry but with a cross pair
through BTC. -/
def crossCache : RateCache :=
  ⟨[("ETH_BTC", mkRat 1 50), ("BTC_USDT", 50000)], some 1000, 300⟩

/-- Successful price fetch that yields only a BTC to USDT rate. -/
def fetchBTCOnly : Option (List (String × String × ℚ)) :=
  some [("BTC", "USDT", 59000)]

/-- Successful price fetch that yields a TON to USDT rate of 2. -/
def fetchTON2 : Option (List (String × String × ℚ)) :=
  some [("TON", "USDT", 2)]

/-- Ledger row of an exchange that has already been settled: status
completed, payout check 7 issued. -/
def settledRow : ExchangeRow :=
  ⟨1, 42, "ab12cd34", "TON", 1/4, 1/80, 1/40, 19/40, 1/2, 10, "completed",
   some 7, true⟩

/-- Conversation state that still holds the settled exchange data: this
arises when the receipt edit after settlement raises, so the outer except
branch is taken and state.clear() on the success path is skipped, while the
row was already marked completed. -/
def staleFsmAfterSettle : FSMState :=
  ⟨some .confirming_exchange,
   ⟨some "TON", some "USDT", some 2, some (1/4), some (1/4), some (19/40),
    some (1/80), some (1/40), some (1/2), some 1, some 10⟩⟩

/-- Conversation state in the confirming position with every required field
present, as left by process_amount for 0.25 TON at rate 2. -/
def confirmingFsm : FSMState :=
  ⟨some .confirming_exchange,
   ⟨some "TON", some "USDT", some 2, some (1/4), some (1/4), some (19/40),
    some (1/80), some (1/40), some (1/2), none, none⟩⟩

/-! Helper lemmas. -/

/-- The rate returned by get_rate is always the lookup cascade applied to
the cache state it leaves behind. -/
theorem get_rate_rate_eq (c : RateCache) (now : ℚ)
    (fetched : Option (List (String × String × ℚ))) (f t : String) :
    (get_rate c now fetched f t).rate =
      lookupRate (get_rate c now fetched f t).state.cache f t := by
  unfold get_rate
  by_cases h : needsRefresh c now <;> simp [h]

/-- The cache state left behind by validate_exchange_amount is the one left
behind by its get_rate call, except that a nonpositive amount returns before
the oracle is consulted. -/
theorem validate_snd (amount : ℚ) (currency : String) (c : RateCache)
    (now : ℚ) (fetched : Option (List (String × String × ℚ))) (tn : Bool) :
    (validate_exchange_amount amount currency c now fetched tn).2 =
      if amount ≤ 0 then c else (get_rate c now fetched currency "USDT").state := by
  unfold validate_exchange_amount
  by_cases h : amount ≤ 0 <;> simp [h]

/-- The decision returned by validate_exchange_amount for a positive amount
is validateCore applied to the oracle result. -/
theorem validate_fst (amount : ℚ) (currency : String) (c : RateCache)
    (now : ℚ) (fetched : Option (List (String × String × ℚ))) (tn : Bool)
    (h : ¬ amount ≤ 0) :
    (validate_exchange_amount amount currency c now fetched tn).1 =
      validateCore amount currency (get_rate c now fetched currency "USDT").rate tn := by
  unfold validate_exchange_amount
  simp [h]

/-- Behaviour of validateCore on a positive rate: the rate is kept and the
result is decided by the two threshold comparisons. -/
theorem validateCore_pos (amount : ℚ) (currency : String) (r : ℚ) (tn : Bool)
    (hr : 0 < r) :
    validateCore amount currency (some r) tn =
      if amount * r < MIN_USDT_AMOUNT then
        ⟨false, .belowMin (MIN_USDT_AMOUNT / r) currency MIN_USDT_AMOUNT,
         some (amount * r), some r, some (USDT_MAX_LIMIT / r)⟩
      else if USDT_MAX_LIMIT < amount * r then
        ⟨false, .aboveMax (USDT_MAX_LIMIT / r) currency USDT_MAX_LIMIT,
         some (amount * r), some r, some (USDT_MAX_LIMIT / r)⟩
      else
        ⟨true, .ok, some (amount * r), some r, some (USDT_MAX_LIMIT / r)⟩ := by
  have h0 : ¬(some r = none ∨ (some r : Option ℚ) = some 0) := by
    simp [hr.ne']
  have h1 : ¬ r ≤ 0 := not_le.mpr hr
  simp only [validateCore, h0, if_false, h1]

/-! Claim theorems. -/

/-- Claim C1: the claim states that invoking check_payment on an already
settled request reports already settled and performs no additional payout
call, the design checking the persisted status before the external call.
The code never reads the persisted status: at the failing input, where the
ledger row is already completed but the conversation data still holds the
invoice id, a second check_payment call reaches create_check again and
issues a duplicate payout; when the conversation was cleared, the second
call instead reports that no exchange information was found, never that the
request is already settled. -/
theorem c1_settlement_not_idempotent :
    settledRow.status = "completed" ∧
    (check_payment staleFsmAfterSettle [settledRow] 1 (some (some .paid))
        (some ⟨8⟩)).create_check_called = true ∧
    (check_payment staleFsmAfterSettle [settledRow] 1 (some (some .paid))
        (some ⟨8⟩)).message = .settled ∧
    (check_payment clearedState [settledRow] 1 (some (some .paid))
        (some ⟨8⟩)).message = .noExchangeInfo := by
  decide

/-- Claim C2, counterexample: with the TON rate at 2 USDT, a submitted
amount of 0.5 TON converts to 1 USDT, which exceeds the 0.5 USDT limit, so
validation rejects it, reporting the maximum 0.25 TON; the claim asserts
acceptance. -/
theorem c2_counterexample :
    (validate_exchange_amount (1/2) "TON" freshCacheTON 500 none false).1.is_valid
      = false ∧
    (validate_exchange_amount (1/2) "TON" freshCacheTON 500 none false).1.message
      = .aboveMax (1/4) "TON" (1/2) := by
  have hg : (get_rate freshCacheTON 500 none "TON" "USDT").rate = some 2 := by
    decide
  have h2 : (0:ℚ) < 2 := by decide
  constructor <;>
  · rw [validate_fst _ _ _ _ _ _ (by norm_num), hg, validateCore_pos _ _ _ _ h2]
    norm_num [MIN_USDT_AMOUNT, USDT_MAX_LIMIT]

/-- Claim C2, amended: with the TON rate at 2 USDT the policy maximum is
0.25 TON, that is USDT_MAX_LIMIT = 0.5 USDT converted; 0.5 TON is rejected
with that maximum reported, while the maximal amount 0.25 TON is accepted
with amount_usdt 0.5, commission 0.025 USDT and net payout 0.475 USDT. -/
theorem c2_amended_limits :
    (validate_exchange_amount (1/2) "TON" freshCacheTON 500 none false).1
      = ⟨false, .aboveMax (1/4) "TON" (1/2), some 1, some 2, some (1/4)⟩ ∧
    (validate_exchange_amount (1/4) "TON" freshCacheTON 500 none false).1
      = ⟨true, .ok, some (1/2), some 2, some (1/4)⟩ ∧
    process_amount_calc (1/4) 2 (1/2) = ⟨1/80, 1/40, 19/40⟩ := by
  have hg : (get_rate freshCacheTON 500 none "TON" "USDT").rate = some 2 := by
    decide
  have h2 : (0:ℚ) < 2 := by decide
  refine ⟨?_, ?_, ?_⟩
  · rw [validate_fst _ _ _ _ _ _ (by norm_num), hg, validateCore_pos _ _ _ _ h2]
    norm_num [MIN_USDT_AMOUNT, USDT_MAX_LIMIT]
  · rw [validate_fst _ _ _ _ _ _ (by norm_num), hg, validateCore_pos _ _ _ _ h2]
    norm_num [MIN_USDT_AMOUNT, USDT_MAX_LIMIT]
  · norm_num [process_amount_calc, COMMISSION_RATE]

/-- Claim C3, counterexample: TON has a configured static fallback rate of
2 in test_rates, yet when the external source fails on an empty cache,
get_rate returns the not-available outcome instead of the fallback. -/
theorem c3_counterexample :
    test_rates.lookup "TON" = some 2 ∧
    (get_rate rate_cache0 0 none "TON" "USDT").rate = none := by
  decide

/-- Claim C3, amended: when the external source fails and the cache resolves
no rate, get_rate itself signals not-available; the static fallback rates
are applied by validate_exchange_amount, and only when USE_TESTNET is set:
under the testnet flag the validator proceeds with the configured fallback
rate, and without it the same failure is reported as rate unavailable. -/
theorem c3_fallback_only_in_validator (currency : String) (r amount : ℚ)
    (c : RateCache) (now : ℚ) (fetched : Option (List (String × String × ℚ)))
    (hfb : test_rates.lookup currency = some r) (hr : 0 < r) (ha : 0 < amount)
    (hfail : (get_rate c now fetched currency "USDT").rate = none) :
    (validate_exchange_amount amount currency c now fetched true).1.rate = some r ∧
    (validate_exchange_amount amount currency c now fetched false).1.message
      = .rateUnavailable currency := by
  have hA : ¬ amount ≤ 0 := not_le.mpr ha
  constructor
  · rw [validate_fst amount currency c now fetched true hA, hfail]
    simp only [validateCore, hfb]
    norm_num
    rw [if_neg (not_le.mpr hr)]
    split_ifs <;> rfl
  · rw [validate_fst amount currency c now fetched false hA, hfail]
    simp [validateCore]

/-- Claim C3, witness: the amended claim instantiated at currency TON with
fallback rate 2, amount 1 and the initial empty cache with a failing
fetch. -/
theorem c3_witness :
    (validate_exchange_amount 1 "TON" rate_cache0 0 none true).1.rate = some 2 ∧
    (validate_exchange_amount 1 "TON" rate_cache0 0 none false).1.message
      = .rateUnavailable "TON" :=
  c3_fallback_only_in_validator "TON" 2 1 rate_cache0 0 none (by decide)
    (by decide) (by decide) (by decide)

/-- Claim C4: with the oracle returning a positive rate r for the currency,
an amount whose USDT equivalent is exactly MIN_USDT_AMOUNT is accepted, a
positive amount strictly below it is rejected with the minimum converted
into the source currency, an amount whose USDT equivalent is exactly
USDT_MAX_LIMIT is accepted, and one strictly above it is rejected with the
maximum converted into the source currency. -/
theorem c4_boundary_inclusion (amount : ℚ) (currency : String) (c : RateCache)
    (now : ℚ) (fetched : Option (List (String × String × ℚ))) (tn : Bool)
    (r : ℚ) (hr : 0 < r)
    (hrate : (get_rate c now fetched currency "USDT").rate = some r) :
    (amount * r = MIN_USDT_AMOUNT →
      (validate_exchange_amount amount currency c now fetched tn).1.is_valid
        = true) ∧
    (0 < amount → amount * r < MIN_USDT_AMOUNT →
      (validate_exchange_amount amount currency c now fetched tn).1.is_valid
          = false ∧
      (validate_exchange_amount amount currency c now fetched tn).1.message
        = .belowMin (MIN_USDT_AMOUNT / r) currency MIN_USDT_AMOUNT) ∧
    (amount * r = USDT_MAX_LIMIT →
      (validate_exchange_amount amount currency c now fetched tn).1.is_valid
        = true) ∧
    (USDT_MAX_LIMIT < amount * r →
      (validate_exchange_amount amount currency c now fetched tn).1.is_valid
          = false ∧
      (validate_exchange_amount amount currency c now fetched tn).1.message
        = .aboveMax (USDT_MAX_LIMIT / r) currency USDT_MAX_LIMIT) := by
  have hpos_amt : 0 < amount * r → 0 < amount := by
    intro h
    rcases mul_pos_iff.mp h with ⟨h1, _⟩ | ⟨_, h2⟩
    · exact h1
    · exact absurd hr (not_lt.mpr h2.le)
  have key : ∀ _ : 0 < amount,
      (validate_exchange_amount amount currency c now fetched tn).1 =
        if amount * r < MIN_USDT_AMOUNT then
          ⟨false, .belowMin (MIN_USDT_AMOUNT / r) currency MIN_USDT_AMOUNT,
           some (amount * r), some r, some (USDT_MAX_LIMIT / r)⟩
        else if USDT_MAX_LIMIT < amount * r then
          ⟨false, .aboveMax (USDT_MAX_LIMIT / r) currency USDT_MAX_LIMIT,
           some (amount * r), some r, some (USDT_MAX_LIMIT / r)⟩
        else
          ⟨true, .ok, some (amount * r), some r, some (USDT_MAX_LIMIT / r)⟩ := by
    intro ha
    rw [validate_fst _ _ _ _ _ _ (not_le.mpr ha), hrate,
      validateCore_pos _ _ _ _ hr]
  refine ⟨?_, ?_, ?_, ?_⟩
  · intro h1
    have ha : 0 < amount := hpos_amt (by rw [h1]; norm_num [MIN_USDT_AMOUNT])
    rw [key ha, if_neg (by rw [h1]; exact lt_irrefl _),
      if_neg (by rw [h1]; norm_num [MIN_USDT_AMOUNT, USDT_MAX_LIMIT])]
  · intro ha h2
    rw [key ha, if_pos h2]
    exact ⟨rfl, rfl⟩
  · intro h3
    have ha : 0 < amount := hpos_amt (by rw [h3]; norm_num [USDT_MAX_LIMIT])
    rw [key ha, if_neg (by rw [h3]; norm_num [MIN_USDT_AMOUNT, USDT_MAX_LIMIT]),
      if_neg (by rw [h3]; exact lt_irrefl _)]
  · intro h4
    have hgt : MIN_USDT_AMOUNT < amount * r :=
      lt_trans (by norm_num [MIN_USDT_AMOUNT, USDT_MAX_LIMIT]) h4
    have ha : 0 < amount :=
      hpos_amt (lt_trans (by norm_num [USDT_MAX_LIMIT]) h4)
    rw [key ha, if_neg (not_lt.mpr hgt.le), if_pos h4]
    exact ⟨rfl, rfl⟩

/-- Claim C4, witness: at the TON rate of 2, amount 0.005 TON sits exactly
at the 0.01 USDT minimum and is accepted, 0.0025 TON is below it and is
rejected with the minimum reported as 0.005 TON, 0.25 TON sits exactly at
the 0.5 USDT maximum and is accepted, and 0.375 TON is above it and is
rejected with the maximum reported as 0.25 TON. -/
theorem c4_witness :
    (validate_exchange_amount (1/200) "TON" freshCacheTON 500 none false).1.is_valid
      = true ∧
    ((validate_exchange_amount (1/400) "TON" freshCacheTON 500 none false).1.is_valid
        = false ∧
     (validate_exchange_amount (1/400) "TON" freshCacheTON 500 none false).1.message
       = .belowMin (MIN_USDT_AMOUNT / 2) "TON" MIN_USDT_AMOUNT) ∧
    (validate_exchange_amount (1/4) "TON" freshCacheTON 500 none false).1.is_valid
      = true ∧
    ((validate_exchange_amount (3/8) "TON" freshCacheTON 500 none false).1.is_valid
        = false ∧
     (validate_exchange_amount (3/8) "TON" freshCacheTON 500 none false).1.message
       = .aboveMax (USDT_MAX_LIMIT / 2) "TON" USDT_MAX_LIMIT) := by
  have hg : (get_rate freshCacheTON 500 none "TON" "USDT").rate = some 2 := by
    decide
  have h2 : (0:ℚ) < 2 := by decide
  refine ⟨?_, ?_, ?_, ?_⟩
  · exact (c4_boundary_inclusion (1/200) "TON" freshCacheTON 500 none false 2
      h2 hg).1 (by norm_num [MIN_USDT_AMOUNT])
  · exact (c4_boundary_inclusion (1/400) "TON" freshCacheTON 500 none false 2
      h2 hg).2.1 (by norm_num) (by norm_num [MIN_USDT_AMOUNT])
  · exact (c4_boundary_inclusion (1/4) "TON" freshCacheTON 500 none false 2
      h2 hg).2.2.1 (by norm_num [USDT_MAX_LIMIT])
  · exact (c4_boundary_inclusion (3/8) "TON" freshCacheTON 500 none false 2
      h2 hg).2.2.2 (by norm_num [USDT_MAX_LIMIT])

/-- Claim C5 (code bug): the commission computation of process_amount is
deterministic, equal inputs giving equal results, and for the values
produced by a successful validation, where amount_usdt = amount * rate, the
commission and the net payout sum back to amount_usdt exactly. This theorem
establishes the property for the intended semantics, the exact decimal
arithmetic the specification mandates for monetary values, embedded here as
exact rationals. The source computes these quantities in binary double
precision instead, and there the exactness fails on accepted inputs: at
amount 0.2883367931107926 and rate 0.6929502798024108 the amount is
accepted, amount_usdt being close to 0.1998, yet the double-precision value
of commission_usdt plus final_amount_usdt differs from amount_usdt by one
unit in the last place, so the program does not satisfy the claim. -/
theorem c5_calc_deterministic_exact (amount rate amount_usdt a2 r2 u2 : ℚ)
    (ha : a2 = amount) (hb : r2 = rate) (hu : u2 = amount_usdt)
    (husdt : amount_usdt = amount * rate) :
    process_amount_calc a2 r2 u2 = process_amount_calc amount rate amount_usdt ∧
    (process_amount_calc amount rate amount_usdt).commission_usdt +
      (process_amount_calc amount rate amount_usdt).final_amount_usdt
        = amount_usdt := by
  refine ⟨by rw [ha, hb, hu], ?_⟩
  unfold process_amount_calc
  dsimp only
  by_cases hu0 : amount_usdt = 0
  · by_cases hr0 : rate = 0
    · rw [if_pos hr0, if_pos hu0, hu0]
      norm_num
    · have ha0 : amount = 0 := by
        rcases mul_eq_zero.mp (husdt ▸ hu0) with h | h
        · exact h
        · exact absurd h hr0
      rw [if_neg hr0, if_pos hu0, ha0, hu0]
      ring
  · by_cases hr0 : rate = 0
    · rw [if_pos hr0, if_neg hu0]
      ring
    · rw [if_neg hr0, if_neg hu0]
      ring

/-- Claim C5, witness: the determinism and exactness statement instantiated
at amount 0.25, rate 2 and amount_usdt 0.5. -/
theorem c5_witness :
    process_amount_calc (1/4) 2 (1/2) = process_amount_calc (1/4) 2 (1/2) ∧
    (process_amount_calc (1/4) 2 (1/2)).commission_usdt +
      (process_amount_calc (1/4) 2 (1/2)).final_amount_usdt = 1/2 :=
  c5_calc_deterministic_exact (1/4) 2 (1/2) (1/4) 2 (1/2) rfl rfl rfl
    (by norm_num)

/-- Claim C6, counterexample: with the initial empty cache, get_rate from
USDT to USDT invokes the external source, and even after a successful
refresh that yields a BTC to USDT rate it returns none rather than 1: there
is no USDT to USDT special case in the code. -/
theorem c6_counterexample :
    (get_rate rate_cache0 0 fetchBTCOnly "USDT" "USDT").called_external = true ∧
    (get_rate rate_cache0 0 fetchBTCOnly "USDT" "USDT").rate ≠ some 1 := by
  decide

/-- Claim C6, amended: get_rate treats USDT to USDT like any other pair:
whenever the cache is stale or empty it calls the external source, and it
returns not-available unless the refreshed cache supplies a direct
USDT_USDT entry or a cross pair through BTC or TON. -/
theorem c6_usdt_not_special (c : RateCache) (now : ℚ)
    (fetched : Option (List (String × String × ℚ)))
    (href : needsRefresh c now = true)
    (hnone : lookupRate (update_cache c now fetched).cache "USDT" "USDT" = none) :
    (get_rate c now fetched "USDT" "USDT").called_external = true ∧
    (get_rate c now fetched "USDT" "USDT").rate = none := by
  unfold get_rate
  simp [href, hnone]

/-- Claim C6, witness: the amended claim instantiated at the initial empty
cache with a refresh that yields only a TON to USDT rate. -/
theorem c6_witness :
    (get_rate rate_cache0 500 fetchTON2 "USDT" "USDT").called_external = true ∧
    (get_rate rate_cache0 500 fetchTON2 "USDT" "USDT").rate = none :=
  c6_usdt_not_special rate_cache0 500 fetchTON2 (by decide) (by decide)

/-- Claim C7: when invoice creation raises during the confirm transition,
the transition aborts atomically: the conversation state, position and data
alike, is exactly what it was, no exchange row is appended to the ledger,
and the user receives the generic try-again message. -/
theorem c7_gateway_failure_atomic (fsm : FSMState) (exchanges : List ExchangeRow)
    (user_id : Nat) (eid : String) (nid : Nat)
    (hfields : requiredFieldsPresent fsm.data = true) :
    confirm_exchange fsm exchanges none user_id eid nid =
      ⟨fsm, exchanges, .invoiceCreateError, true⟩ := by
  simp [confirm_exchange, hfields]

/-- Claim C7, witness: the atomic-abort statement instantiated at a
confirming conversation with all fields present, an empty ledger and a
failing gateway. -/
theorem c7_witness :
    confirm_exchange confirmingFsm [] none 42 "ab12cd34" 1 =
      ⟨confirmingFsm, [], .invoiceCreateError, true⟩ :=
  c7_gateway_failure_atomic confirmingFsm [] 42 "ab12cd34" 1 (by decide)

/-- Claim C8, counterexample: validation is not mutation free: with an
expired cache and a successful refresh, validate_exchange_amount returns a
cache state different from the one it started from. -/
theorem c8_counterexample :
    (validate_exchange_amount (1/10) "TON" expiredCacheTON 200 fetchTON2 false).2
      ≠ expiredCacheTON := by
  rw [validate_snd, if_neg (by norm_num)]
  decide

/-- Claim C8, amended: validate_exchange_amount mutates no state other than
the shared rate cache, which its get_rate call may refresh: whenever the
cache is fresh and non-empty the cache is returned unchanged, the decision
being derived purely from the oracle state and the static policy tables. -/
theorem c8_fresh_cache_unchanged (amount : ℚ) (currency : String)
    (c : RateCache) (now : ℚ) (fetched : Option (List (String × String × ℚ)))
    (tn : Bool) (hfresh : needsRefresh c now = false) :
    (validate_exchange_amount amount currency c now fetched tn).2 = c := by
  rw [validate_snd]
  unfold get_rate
  simp [hfresh]

/-- Claim C8, witness: the no-mutation statement instantiated at a fresh
cache. -/
theorem c8_witness :
    (validate_exchange_amount (1/10) "TON" freshCacheTON 500 none false).2
      = freshCacheTON :=
  c8_fresh_cache_unchanged (1/10) "TON" freshCacheTON 500 none false (by decide)

/-- Claim C9: once the TTL window has elapsed, get_rate attempts a refresh
before answering; when the fetch fails, the previously cached entries are
retained rather than discarded, and the answer is served from those stale
entries as a last resort. -/
theorem c9_expired_refresh_stale_fallback (c : RateCache) (now e : ℚ)
    (f t : String) (hexp : c.cache_expiry = some e) (helapsed : e < now) :
    (get_rate c now none f t).called_external = true ∧
    (get_rate c now none f t).state.cache = c.cache ∧
    (get_rate c now none f t).rate = lookupRate c.cache f t := by
  have href : needsRefresh c now = true := by
    simp [needsRefresh, hexp, helapsed]
  unfold get_rate
  simp [href, update_cache]

/-- Claim C9, witness: the stale-fallback statement instantiated at a cache
whose expiry 100 has passed at time 500, with the TTL duration 300 of the
deployed instance. -/
theorem c9_witness :
    (get_rate expiredCacheTON 500 none "TON" "USDT").called_external = true ∧
    (get_rate expiredCacheTON 500 none "TON" "USDT").state.cache
      = expiredCacheTON.cache ∧
    (get_rate expiredCacheTON 500 none "TON" "USDT").rate
      = lookupRate expiredCacheTON.cache "TON" "USDT" :=
  c9_expired_refresh_stale_fallback expiredCacheTON 500 100 "TON" "USDT" rfl
    (by decide)

/-- Claim C10: when the cache left behind by get_rate holds no direct entry
for the requested pair, the result is the cross rate through BTC when both
of those entries are cached, otherwise the cross rate through TON when both
of those are cached, and only otherwise not-available. -/
theorem c10_cross_rate_cascade (c : RateCache) (now : ℚ)
    (fetched : Option (List (String × String × ℚ))) (x y : String)
    (hdirect : (get_rate c now fetched x y).state.cache.lookup (x ++ "_" ++ y)
      = none) :
    (∀ a b : ℚ,
      (get_rate c now fetched x y).state.cache.lookup (x ++ "_BTC") = some a →
      (get_rate c now fetched x y).state.cache.lookup ("BTC_" ++ y) = some b →
      (get_rate c now fetched x y).rate = some (a * b)) ∧
    (∀ a b : ℚ,
      ((get_rate c now fetched x y).state.cache.lookup (x ++ "_BTC") = none ∨
       (get_rate c now fetched x y).state.cache.lookup ("BTC_" ++ y) = none) →
      (get_rate c now fetched x y).state.cache.lookup (x ++ "_TON") = some a →
      (get_rate c now fetched x y).state.cache.lookup ("TON_" ++ y) = some b →
      (get_rate c now fetched x y).rate = some (a * b)) ∧
    (((get_rate c now fetched x y).state.cache.lookup (x ++ "_BTC") = none ∨
      (get_rate c now fetched x y).state.cache.lookup ("BTC_" ++ y) = none) →
     ((get_rate c now fetched x y).state.cache.lookup (x ++ "_TON") = none ∨
      (get_rate c now fetched x y).state.cache.lookup ("TON_" ++ y) = none) →
     (get_rate c now fetched x y).rate = none) := by
  have hq := get_rate_rate_eq c now fetched x y
  refine ⟨?_, ?_, ?_⟩
  · intro a b h1 h2
    rw [hq]
    unfold lookupRate
    rw [hdirect, h1, h2]
  · intro a b hne h3 h4
    rw [hq]
    unfold lookupRate
    rw [hdirect, h3, h4]
    rcases hne with h | h
    · rw [h]
    · rcases h1 : (get_rate c now fetched x y).state.cache.lookup (x ++ "_BTC")
        with _ | a1
      · rfl
      · rw [h]
  · intro hBTC hTON
    rw [hq]
    unfold lookupRate
    rw [hdirect]
    rcases hb1 : (get_rate c now fetched x y).state.cache.lookup (x ++ "_BTC")
        with _ | a1 <;>
      rcases hb2 : (get_rate c now fetched x y).state.cache.lookup ("BTC_" ++ y)
        with _ | b1 <;>
      rcases ht1 : (get_rate c now fetched x y).state.cache.lookup (x ++ "_TON")
        with _ | a2 <;>
      rcases ht2 : (get_rate c now fetched x y).state.cache.lookup ("TON_" ++ y)
        with _ | b2 <;>
      simp_all

/-- Claim C10, witness: the cascade instantiated at a fresh cache holding no
direct ETH to USDT entry but a cross pair through BTC. -/
theorem c10_witness :
    (get_rate crossCache 500 none "ETH" "USDT").rate
      = some (mkRat 1 50 * 50000) :=
  (c10_cross_rate_cascade crossCache 500 none "ETH" "USDT" (by decide)).1
    (mkRat 1 50) 50000 (by decide) (by decide)

end FlipEx
